import Mathlib

/-!
Shallow embedding of the HASHER synthetic-training-frame generators.

The repository holds two near-duplicate generator scripts:

* `src/scripts/generate_hello_world.py` — the "Remapped" variant: its
  `create_frame` reduces the target token modulo 1000 before storing it,
  and its catalog carries explicit bit-pattern feature slots.
* `src/pipeline/1_DATA_MINER/scripts/generate_hello_world.py` — the "Raw"
  variant: its `create_frame` copies the target token unchanged and the
  catalog uses all-zero 12-slot feature vectors.

Each script builds a fixed, literal list of frames (a Python list of
dicts) and serializes it with `json.dump(frames, f, indent=2)`.
Python integers here are all non-negative literals, so they are embedded
as `Nat`; Python lists become `List`, dicts become a `Frame` structure
with the same field names and order.
-/

/-- A training frame: the dict returned by `create_frame` in both
scripts, fields in the order the Python code writes them. -/
structure Frame where
  source_file : String
  chunk_id : Nat
  window_start : Nat
  token_sequence : List Nat
  target_token : Nat
  feature_vector : List Nat
  context_hash : Nat
  deriving DecidableEq, Repr

/-- One catalog entry: the positional arguments of one
`frames.append(create_frame(...))` call, in argument order. -/
structure CatalogEntry where
  source : String
  chunk : Nat
  start : Nat
  tokens : List Nat
  target : Nat
  slots : List Nat
  deriving DecidableEq, Repr

namespace HelloRemapped

/-- `create_frame` of `src/scripts/generate_hello_world.py`: maps the
target token into vocab size 1000 (`vocab_target = target % 1000`). -/
def create_frame (source : String) (chunk : Nat) (start : Nat)
    (tokens : List Nat) (target : Nat) (slots : List Nat) : Frame :=
  let vocab_target := target % 1000
  { source_file := source
    chunk_id := chunk
    window_start := start
    token_sequence := tokens
    target_token := vocab_target
    feature_vector := slots
    context_hash := 0 }

/-- The five `frames.append(create_frame(...))` argument tuples of
`src/scripts/generate_hello_world.py`, in program order. -/
def catalog : List CatalogEntry :=
  [ ⟨"demo.txt", 1, 0, [906], 917,
      [0x11111111, 0x22222222, 0x33333333, 0x44444444, 0x00000001,
        0, 0, 0, 0, 0, 0x1000, 0]⟩,
    ⟨"demo.txt", 1, 0, [906, 917], 0,
      [0x11111111, 0x22222222, 0x33333333, 0x44444444, 0x00000002,
        0, 0, 0, 0, 0, 0x1000, 1]⟩,
    ⟨"demo.txt", 2, 0, [923, 374], 701,
      [0xAAAAAAAA, 0xBBBBBBBB, 0xCCCCCCCC, 0xDDDDDDDD, 0x00000001,
        0, 0, 0, 0, 1, 0x1000, 0]⟩,
    ⟨"demo.txt", 2, 0, [923, 374, 701], 836,
      [0xAAAAAAAA, 0xBBBBBBBB, 0xCCCCCCCC, 0xDDDDDDDD, 0x00000002,
        0, 0, 0, 0, 1, 0x1000, 1]⟩,
    ⟨"demo.txt", 2, 0, [923, 374, 701, 836], 30,
      [0xAAAAAAAA, 0xBBBBBBBB, 0xCCCCCCCC, 0xDDDDDDDD, 0x00000003,
        0, 0, 0, 0, 1, 0x1000, 2]⟩ ]

/-- Applies `create_frame` to one catalog entry's arguments. -/
def encodeEntry (e : CatalogEntry) : Frame :=
  create_frame e.source e.chunk e.start e.tokens e.target e.slots

/-- The `frames` list the script builds: the five `create_frame` results
appended in program order. -/
def frames : List Frame :=
  [ create_frame "demo.txt" 1 0 [906] 917
      [0x11111111, 0x22222222, 0x33333333, 0x44444444, 0x00000001,
        0, 0, 0, 0, 0, 0x1000, 0],
    create_frame "demo.txt" 1 0 [906, 917] 0
      [0x11111111, 0x22222222, 0x33333333, 0x44444444, 0x00000002,
        0, 0, 0, 0, 0, 0x1000, 1],
    create_frame "demo.txt" 2 0 [923, 374] 701
      [0xAAAAAAAA, 0xBBBBBBBB, 0xCCCCCCCC, 0xDDDDDDDD, 0x00000001,
        0, 0, 0, 0, 1, 0x1000, 0],
    create_frame "demo.txt" 2 0 [923, 374, 701] 836
      [0xAAAAAAAA, 0xBBBBBBBB, 0xCCCCCCCC, 0xDDDDDDDD, 0x00000002,
        0, 0, 0, 0, 1, 0x1000, 1],
    create_frame "demo.txt" 2 0 [923, 374, 701, 836] 30
      [0xAAAAAAAA, 0xBBBBBBBB, 0xCCCCCCCC, 0xDDDDDDDD, 0x00000003,
        0, 0, 0, 0, 1, 0x1000, 2] ]

end HelloRemapped

namespace HelloRaw

/-- `create_frame` of
`src/pipeline/1_DATA_MINER/scripts/generate_hello_world.py`: copies the
target token unchanged. -/
def create_frame (source : String) (chunk : Nat) (start : Nat)
    (tokens : List Nat) (target : Nat) (slots : List Nat) : Frame :=
  { source_file := source
    chunk_id := chunk
    window_start := start
    token_sequence := tokens
    target_token := target
    feature_vector := slots
    context_hash := 0 }

/-- `[0]*12`, the all-zero feature slots of the raw-mode catalog. -/
def zeroSlots : List Nat := List.replicate 12 0

/-- The ten `frames.append(create_frame(...))` argument tuples of
`src/pipeline/1_DATA_MINER/scripts/generate_hello_world.py`, in program
order. -/
def catalog : List CatalogEntry :=
  [ ⟨"demo.txt", 1, 0, [9906], 1917, zeroSlots⟩,
    ⟨"demo.txt", 2, 0, [1917], 0, zeroSlots⟩,
    ⟨"demo.txt", 3, 0, [14957], 0, zeroSlots⟩,
    ⟨"demo.txt", 4, 0, [6504, 261], 1917, zeroSlots⟩,
    ⟨"demo.txt", 5, 0, [8460, 261], 1917, zeroSlots⟩,
    ⟨"demo.txt", 6, 0, [3923], 374, zeroSlots⟩,
    ⟨"demo.txt", 7, 0, [374], 701, zeroSlots⟩,
    ⟨"demo.txt", 8, 0, [701], 836, zeroSlots⟩,
    ⟨"demo.txt", 9, 0, [836], 30, zeroSlots⟩,
    ⟨"demo.txt", 10, 0, [59175], 701, zeroSlots⟩ ]

/-- Applies `create_frame` to one catalog entry's arguments. -/
def encodeEntry (e : CatalogEntry) : Frame :=
  create_frame e.source e.chunk e.start e.tokens e.target e.slots

/-- The `frames` list the script builds: the ten `create_frame` results
appended in program order. -/
def frames : List Frame :=
  [ create_frame "demo.txt" 1 0 [9906] 1917 zeroSlots,
    create_frame "demo.txt" 2 0 [1917] 0 zeroSlots,
    create_frame "demo.txt" 3 0 [14957] 0 zeroSlots,
    create_frame "demo.txt" 4 0 [6504, 261] 1917 zeroSlots,
    create_frame "demo.txt" 5 0 [8460, 261] 1917 zeroSlots,
    create_frame "demo.txt" 6 0 [3923] 374 zeroSlots,
    create_frame "demo.txt" 7 0 [374] 701 zeroSlots,
    create_frame "demo.txt" 8 0 [701] 836 zeroSlots,
    create_frame "demo.txt" 9 0 [836] 30 zeroSlots,
    create_frame "demo.txt" 10 0 [59175] 701 zeroSlots ]

end HelloRaw

/-! ## Serialization

Both scripts end with `json.dump(frames, f, indent=2)`.  The model below
reproduces that formatting: a JSON array of objects, the seven fields in
dict insertion order, nested two-space indentation. -/

/-- Serializes a list of integers the way `json.dump(..., indent=2)`
renders a nested list whose surrounding line is indented by `pad`. -/
def jsonNatList (pad : String) (xs : List Nat) : String :=
  match xs with
  | [] => "[]"
  | _ =>
    "[\n"
      ++ String.intercalate ",\n" (xs.map (fun n => pad ++ "  " ++ toString n))
      ++ "\n" ++ pad ++ "]"

/-- Serializes one frame dict as `json.dump(..., indent=2)` renders an
object nested one level inside the top-level array. -/
def jsonFrame (f : Frame) : String :=
  "\x7b\n"
    ++ "    \"source_file\": \"" ++ f.source_file ++ "\",\n"
    ++ "    \"chunk_id\": " ++ toString f.chunk_id ++ ",\n"
    ++ "    \"window_start\": " ++ toString f.window_start ++ ",\n"
    ++ "    \"token_sequence\": " ++ jsonNatList "    " f.token_sequence ++ ",\n"
    ++ "    \"target_token\": " ++ toString f.target_token ++ ",\n"
    ++ "    \"feature_vector\": " ++ jsonNatList "    " f.feature_vector ++ ",\n"
    ++ "    \"context_hash\": " ++ toString f.context_hash ++ "\n  \x7d"

/-- The serialized elements of the top-level JSON array, one string per
frame, in list order. -/
def jsonArrayElements (fs : List Frame) : List String :=
  fs.map jsonFrame

/-- Serializes the whole frames list as `json.dump(frames, f, indent=2)`
writes it. -/
def jsonDump (fs : List Frame) : String :=
  match fs with
  | [] => "[]"
  | _ =>
    "[\n"
      ++ String.intercalate ",\n" ((jsonArrayElements fs).map (fun s => "  " ++ s))
      ++ "\n]"

/-- Everything the remapped-mode script writes to
`training_frames.json`: a pure value, there is no other input. -/
def remappedOutput : String := jsonDump HelloRemapped.frames

/-- Everything the raw-mode script writes to `training_frames.json`: a
pure value, there is no other input. -/
def rawOutput : String := jsonDump HelloRaw.frames

/-! ## Claims -/

/-- Claim C1: in Remapped mode, for every non-negative target the frame
produced by `create_frame` has `target_token = target % 1000`, always in
[0, 999]; in particular target 1917 yields 917 and target 0 yields 0. -/
theorem C1_remapped_target_mod :
    (∀ (source : String) (chunk start : Nat) (tokens : List Nat)
        (target : Nat) (slots : List Nat),
      (HelloRemapped.create_frame source chunk start tokens target slots).target_token
          = target % 1000 ∧
        (HelloRemapped.create_frame source chunk start tokens target slots).target_token
          ≤ 999) ∧
    (HelloRemapped.create_frame "demo.txt" 1 0 [906] 1917 []).target_token = 917 ∧
    (HelloRemapped.create_frame "demo.txt" 1 0 [906] 0 []).target_token = 0 := by
  refine ⟨fun source chunk start tokens target slots => ⟨rfl, ?_⟩, rfl, rfl⟩
  show target % 1000 ≤ 999
  omega

/-- Claim C2: in Raw mode, for every non-negative target the frame
produced by `create_frame` has `target_token` equal to the target
unchanged, and its `token_sequence` and `feature_vector` are the input
sequences copied unchanged. -/
theorem C2_raw_identity :
    ∀ (source : String) (chunk start : Nat) (tokens : List Nat)
        (target : Nat) (slots : List Nat),
      (HelloRaw.create_frame source chunk start tokens target slots).target_token
          = target ∧
        (HelloRaw.create_frame source chunk start tokens target slots).token_sequence
          = tokens ∧
        (HelloRaw.create_frame source chunk start tokens target slots).feature_vector
          = slots :=
  fun _ _ _ _ _ _ => ⟨rfl, rfl, rfl⟩

/-- Claim C3: the raw-mode generator emits exactly 10 frames and the
remapped-mode generator exactly 5, one serialized JSON-array element per
catalog entry, in catalog enumeration order (the frames list is exactly
the catalog mapped through the encoder, and the serialized array has one
element per frame in the same order). -/
theorem C3_catalog_count_and_order :
    HelloRaw.frames.length = 10 ∧
    HelloRemapped.frames.length = 5 ∧
    HelloRaw.frames = HelloRaw.catalog.map HelloRaw.encodeEntry ∧
    HelloRemapped.frames = HelloRemapped.catalog.map HelloRemapped.encodeEntry ∧
    jsonArrayElements HelloRaw.frames = HelloRaw.frames.map jsonFrame ∧
    (jsonArrayElements HelloRaw.frames).length = 10 ∧
    (jsonArrayElements HelloRemapped.frames).length = 5 :=
  ⟨rfl, rfl, rfl, rfl, rfl, rfl, rfl⟩

/-- Claim C4: every frame emitted by either generator has a
`feature_vector` of length exactly 12. -/
theorem C4_feature_vector_arity :
    ((HelloRaw.frames ++ HelloRemapped.frames).all
      (fun f => f.feature_vector.length == 12)) = true := by
  decide

/-- Claim C5: in both Raw and Remapped mode, for every input the frame
produced by `create_frame` has `context_hash = 0`. -/
theorem C5_context_hash_zero :
    ∀ (source : String) (chunk start : Nat) (tokens : List Nat)
        (target : Nat) (slots : List Nat),
      (HelloRaw.create_frame source chunk start tokens target slots).context_hash
          = 0 ∧
        (HelloRemapped.create_frame source chunk start tokens target slots).context_hash
          = 0 :=
  fun _ _ _ _ _ _ => ⟨rfl, rfl⟩

/-- Claim C6: every frame emitted by either generator satisfies the
Frame field invariants: non-empty `source_file`, `chunk_id` at least 1,
`window_start` at least 0, and non-empty `token_sequence`. -/
theorem C6_frame_invariants :
    ((HelloRaw.frames ++ HelloRemapped.frames).all
      (fun f =>
        (!(f.source_file == "")) && decide (1 ≤ f.chunk_id) &&
          decide (0 ≤ f.window_start) && (!f.token_sequence.isEmpty))) = true := by
  decide

/-- Claim C7: token-sequence lengths 1 through 4 all appear among the
catalog entries (the remapped catalog realizes the length profile
[1,2,2,3,4], every emitted sequence in either generator has length
between 1 and 4), and the encoders preserve every supplied
token_sequence exactly, with no truncation and no padding. -/
theorem C7_variable_length_sequences :
    HelloRemapped.frames.map (fun f => f.token_sequence.length) = [1, 2, 2, 3, 4] ∧
    ((HelloRaw.frames ++ HelloRemapped.frames).all
      (fun f =>
        decide (1 ≤ f.token_sequence.length) &&
          decide (f.token_sequence.length ≤ 4))) = true ∧
    (∀ (source : String) (chunk start : Nat) (tokens : List Nat)
        (target : Nat) (slots : List Nat),
      (HelloRaw.create_frame source chunk start tokens target slots).token_sequence
          = tokens ∧
        (HelloRemapped.create_frame source chunk start tokens target slots).token_sequence
          = tokens) :=
  ⟨rfl, by decide, fun _ _ _ _ _ _ => ⟨rfl, rfl⟩⟩

/-- Claim C8: the raw-mode end-to-end scenario: the first catalog entry
(token_sequence [9906], target 1917, all-zero 12-slot feature vector)
encodes to exactly the frame with source_file "demo.txt", chunk_id 1,
window_start 0, token_sequence [9906], target_token 1917, feature_vector
twelve zeros, context_hash 0. -/
theorem C8_raw_end_to_end :
    HelloRaw.frames[0]? = some
      { source_file := "demo.txt"
        chunk_id := 1
        window_start := 0
        token_sequence := [9906]
        target_token := 1917
        feature_vector := [0, 0, 0, 0, 0, 0, 0, 0, 0, 0, 0, 0]
        context_hash := 0 } := by
  decide

/-- Claim C9: generation and serialization are deterministic: any two
runs of either generator from its (empty) input produce the same ordered
frame sequence and byte-identical serialized JSON, since both are fixed
pure values depending on no randomness or external state. -/
theorem C9_deterministic :
    (∀ r₁ r₂ : List Frame, r₁ = HelloRaw.frames → r₂ = HelloRaw.frames → r₁ = r₂) ∧
    (∀ r₁ r₂ : List Frame,
      r₁ = HelloRemapped.frames → r₂ = HelloRemapped.frames → r₁ = r₂) ∧
    (∀ s₁ s₂ : String, s₁ = rawOutput → s₂ = rawOutput → s₁ = s₂) ∧
    (∀ s₁ s₂ : String, s₁ = remappedOutput → s₂ = remappedOutput → s₁ = s₂) :=
  ⟨fun _ _ h₁ h₂ => h₁.trans h₂.symm,
    fun _ _ h₁ h₂ => h₁.trans h₂.symm,
    fun _ _ h₁ h₂ => h₁.trans h₂.symm,
    fun _ _ h₁ h₂ => h₁.trans h₂.symm⟩

/-- Witness for C9: the determinism theorem applied to two concrete runs
of each generator. -/
theorem C9_deterministic_witness :
    HelloRaw.frames = HelloRaw.frames ∧
    HelloRemapped.frames = HelloRemapped.frames ∧
    rawOutput = rawOutput ∧
    remappedOutput = remappedOutput :=
  ⟨C9_deterministic.1 HelloRaw.frames HelloRaw.frames rfl rfl,
    C9_deterministic.2.1 HelloRemapped.frames HelloRemapped.frames rfl rfl,
    C9_deterministic.2.2.1 rawOutput rawOutput rfl rfl,
    C9_deterministic.2.2.2 remappedOutput remappedOutput rfl rfl⟩

/-- Claim C10: in the remapped-mode generator every integer in every
emitted frame's token_sequence is already in [0, 999], while the
encoder's modulo-1000 reduction touches only the target: the
token_sequence is passed through unchanged and target_token gets
`target % 1000`. -/
theorem C10_remapped_tokens_pre_reduced :
    (HelloRemapped.frames.all
      (fun f => f.token_sequence.all (fun t => decide (t ≤ 999)))) = true ∧
    (∀ (source : String) (chunk start : Nat) (tokens : List Nat)
        (target : Nat) (slots : List Nat),
      (HelloRemapped.create_frame source chunk start tokens target slots).token_sequence
          = tokens ∧
        (HelloRemapped.create_frame source chunk start tokens target slots).target_token
          = target % 1000) :=
  ⟨by decide, fun _ _ _ _ _ _ => ⟨rfl, rfl⟩⟩
